import Mathlib

/-!
# Verification of the container vulnerability scanner core

A shallow embedding, in Lean 4, of the scan-lifecycle core of the
`container-vuln-scanner` repository (`app/worker.py`, `app/services.py`,
`app/repositories.py`, `app/models.py`), together with theorems settling the
specification claims about it.

Conventions of the embedding:
* Python strings are Lean `String`s; where character-level reasoning is
  needed we work on `String.data : List Char`.
* Python `dict.get(k, d)` on a typed document is an `Option` field read with
  `Option.getD`.
* Python truthiness of a string (`if s:`) is `s ≠ ""`; of an optional value,
  `Option.isSome` combined with the string test where relevant.
* Database rows are explicit records; an `UPDATE ... SET` is a function from
  row to row; concurrent executions are modelled by explicit interleaving of
  atomic steps (one step per SQL statement / commit).
* Wall-clock instants are abstract `Nat` tick counts except where the code
  inspects calendar fields, where a `PyDatetime` record of calendar fields is
  used.
-/

namespace VulnScanner

/-- Scan lifecycle states, from `models.ScanStatus`. -/
inductive ScanStatus where
  | pending
  | pulling
  | scanning
  | parsing
  | completed
  | failed
deriving DecidableEq, Repr

/-- Compliance classification, from `models.ComplianceStatus`. -/
inductive ComplianceStatus where
  | compliant
  | non_compliant
  | pending_review
deriving DecidableEq, Repr

/-- Risk-scoring weights of `worker.WorkerConfig` (the other fields of the
Python dataclass — binary paths, timeouts, poll interval, worker id — do not
influence the pure metric computation and are not part of the model). -/
structure WorkerConfig where
  weight_critical : Nat
  weight_high : Nat
  weight_medium : Nat
  weight_low : Nat
deriving DecidableEq, Repr

/-- The default weights from `config.Settings`
(`risk_weight_critical = 100`, `risk_weight_high = 50`,
`risk_weight_medium = 10`, `risk_weight_low = 1`). -/
def defaultWorkerConfig : WorkerConfig :=
  { weight_critical := 100
    weight_high := 50
    weight_medium := 10
    weight_low := 1 }

/-- One vulnerability entry of a Trivy result, with the fields the metric
extractor reads: the optional `Severity` and `FixedVersion` keys.  The CVSS
map feeds only the floating-point aggregates `max_cvss_score` /
`avg_cvss_score`, which are outside this (integer-exact) model. -/
structure Vuln where
  severity : Option String
  fixedVersion : Option String
deriving DecidableEq, Repr

/-- One entry of the `Results` array; `Vulnerabilities` may be absent or
`null` (`result.get("Vulnerabilities") or []`). -/
structure TrivyTarget where
  vulnerabilities : Option (List Vuln)
deriving DecidableEq, Repr

/-- A parsed Trivy document; the `Results` key may be absent
(`trivy_output.get("Results", [])`). -/
structure TrivyDoc where
  results : Option (List TrivyTarget)
deriving DecidableEq, Repr

/-- Python `str.upper()` (ASCII, which covers the severity strings). -/
def pyUpper (s : String) : String := String.mk (s.data.map Char.toUpper)

/-- Python `str.strip()`: drop whitespace from both ends. -/
def pyStrip (s : String) : String :=
  String.mk (((s.data.dropWhile Char.isWhitespace).reverse.dropWhile
    Char.isWhitespace).reverse)

/-- The counters of `worker.RiskMetrics` (the floating-point CVSS aggregates
and the per-finding detail list are not modelled; no claim refers to them). -/
structure RiskMetrics where
  critical_count : Nat := 0
  high_count : Nat := 0
  medium_count : Nat := 0
  low_count : Nat := 0
  unknown_count : Nat := 0
  total_vulnerabilities : Nat := 0
  fixable_count : Nat := 0
  unfixable_count : Nat := 0
  risk_score : Nat := 0
  is_compliant : Bool := true
  compliance_status : ComplianceStatus := ComplianceStatus.compliant
deriving DecidableEq, Repr

/-- The body of the per-vulnerability loop of
`worker.calculate_risk_metrics`: bump the total, tally the severity bucket
(`vuln.get("Severity", "UNKNOWN").upper()`), and tally fixability
(`fixed_version and fixed_version.strip()`). -/
def tallyVuln (metrics : RiskMetrics) (vuln : Vuln) : RiskMetrics :=
  let metrics :=
    { metrics with total_vulnerabilities := metrics.total_vulnerabilities + 1 }
  let severity := pyUpper (vuln.severity.getD "UNKNOWN")
  let metrics :=
    if severity = "CRITICAL" then
      { metrics with critical_count := metrics.critical_count + 1 }
    else if severity = "HIGH" then
      { metrics with high_count := metrics.high_count + 1 }
    else if severity = "MEDIUM" then
      { metrics with medium_count := metrics.medium_count + 1 }
    else if severity = "LOW" then
      { metrics with low_count := metrics.low_count + 1 }
    else
      { metrics with unknown_count := metrics.unknown_count + 1 }
  let fixed_version := vuln.fixedVersion.getD ""
  if fixed_version ≠ "" ∧ pyStrip fixed_version ≠ "" then
    { metrics with fixable_count := metrics.fixable_count + 1 }
  else
    { metrics with unfixable_count := metrics.unfixable_count + 1 }

/-- `worker.calculate_risk_metrics`: fold the tally over every vulnerability
of every result, then set the weighted risk score and the compliance
classification. -/
def calculate_risk_metrics (trivy_output : TrivyDoc) (config : WorkerConfig) :
    RiskMetrics :=
  let results := trivy_output.results.getD []
  let metrics := results.foldl
    (fun acc result => (result.vulnerabilities.getD []).foldl tallyVuln acc)
    ({} : RiskMetrics)
  let metrics : RiskMetrics :=
    { metrics with risk_score :=
        metrics.critical_count * config.weight_critical +
        metrics.high_count * config.weight_high +
        metrics.medium_count * config.weight_medium +
        metrics.low_count * config.weight_low }
  if metrics.critical_count > 0 ∨ metrics.high_count > 0 then
    { metrics with is_compliant := false
                   compliance_status := ComplianceStatus.non_compliant }
  else if metrics.medium_count > 0 ∨ metrics.low_count > 0 then
    { metrics with is_compliant := false
                   compliance_status := ComplianceStatus.pending_review }
  else
    { metrics with is_compliant := true
                   compliance_status := ComplianceStatus.compliant }

/-- A finding is fixable when `FixedVersion` is present and non-blank after
trimming — the source computes `bool(fixed_version and fixed_version.strip())`
for the `is_fixable` detail field, with `fixed_version =
vuln.get("FixedVersion", "")`. -/
def is_fixable (v : Vuln) : Bool :=
  decide (v.fixedVersion.getD "" ≠ "" ∧ pyStrip (v.fixedVersion.getD "") ≠ "")

/-- All vulnerabilities of a Trivy document, in iteration order (every
vulnerability of every result). -/
def allVulns (doc : TrivyDoc) : List Vuln :=
  (doc.results.getD []).flatMap fun r => r.vulnerabilities.getD []

/-- The columns of `models.VulnerabilityScan` that the claims are about.
The floating-point columns (`scan_duration`, `pull_duration`,
`analysis_duration`, `max_cvss_score`, `avg_cvss_score`) and pure metadata
(`image_digest`, `trivy_version`, `idempotency_key`, `created_at`) are not
modelled; no claim constrains them.  Timestamps are abstract `Nat` ticks. -/
structure ScanRow where
  image_name : String
  image_tag : String
  registry : String
  status : ScanStatus
  worker_id : Option String := none
  started_at : Option Nat := none
  completed_at : Option Nat := none
  updated_at : Nat := 0
  error_message : Option String := none
  error_code : Option String := none
  retry_count : Nat := 0
  raw_report : Option TrivyDoc := none
  critical_count : Nat := 0
  high_count : Nat := 0
  medium_count : Nat := 0
  low_count : Nat := 0
  unknown_count : Nat := 0
  total_vulnerabilities : Nat := 0
  fixable_count : Nat := 0
  unfixable_count : Nat := 0
  risk_score : Nat := 0
  is_compliant : Bool := false
  compliance_status : ComplianceStatus := ComplianceStatus.pending_review
deriving DecidableEq, Repr

/-- `worker.update_scan_status`: write `status` and `updated_at`, the error
fields only when truthy (`if error_message:` / `if error_code:`), and any
keyword arguments unconditionally (`values.update(kwargs)`).  The keyword
arguments that appear at call sites in the source are `started_at`,
`retry_count` and `completed_at`; an absent keyword (`none` here) leaves the
column unchanged. -/
def update_scan_status (row : ScanRow) (new_status : ScanStatus)
    (error_message : Option String := none) (error_code : Option String := none)
    (kw_started_at : Option Nat := none) (kw_retry_count : Option Nat := none)
    (kw_completed_at : Option Nat := none) (now : Nat := 0) : ScanRow :=
  let row := { row with status := new_status, updated_at := now }
  let row := match error_message with
    | some m => if m ≠ "" then { row with error_message := some m } else row
    | none => row
  let row := match error_code with
    | some c => if c ≠ "" then { row with error_code := some c } else row
    | none => row
  let row := match kw_started_at with
    | some t => { row with started_at := some t }
    | none => row
  let row := match kw_retry_count with
    | some n => { row with retry_count := n }
    | none => row
  match kw_completed_at with
    | some t => { row with completed_at := some t }
    | none => row

/-- `worker.save_scan_results`: the terminal success write, copying every
metric of the `RiskMetrics` value into the row, setting `status = completed`,
`raw_report`, `completed_at`, `updated_at` and `worker_id` in a single
update. -/
def save_scan_results (row : ScanRow) (raw_report : TrivyDoc)
    (metrics : RiskMetrics) (worker_id : String) (now : Nat) : ScanRow :=
  { row with
      status := ScanStatus.completed
      raw_report := some raw_report
      critical_count := metrics.critical_count
      high_count := metrics.high_count
      medium_count := metrics.medium_count
      low_count := metrics.low_count
      unknown_count := metrics.unknown_count
      total_vulnerabilities := metrics.total_vulnerabilities
      fixable_count := metrics.fixable_count
      unfixable_count := metrics.unfixable_count
      risk_score := metrics.risk_score
      is_compliant := metrics.is_compliant
      compliance_status := metrics.compliance_status
      completed_at := some now
      updated_at := now
      worker_id := some worker_id }

end VulnScanner

namespace VulnScanner

/-! ## Counting invariants of the metric extractor (C1, C2, C3) -/

/-- The two counting equations of the spec, as a predicate on metrics. -/
def countsConsistent (m : RiskMetrics) : Prop :=
  m.total_vulnerabilities =
      m.critical_count + m.high_count + m.medium_count + m.low_count +
        m.unknown_count ∧
  m.fixable_count + m.unfixable_count = m.total_vulnerabilities

theorem tallyVuln_counts (m : RiskMetrics) (v : Vuln) :
    countsConsistent m → countsConsistent (tallyVuln m v) := by
  intro h
  unfold countsConsistent at h ⊢
  simp only [tallyVuln]
  repeat' split
  all_goals simp
  all_goals omega

theorem foldl_tallyVuln_counts (l : List Vuln) (m : RiskMetrics) :
    countsConsistent m → countsConsistent (l.foldl tallyVuln m) := by
  induction l generalizing m with
  | nil => intro h; exact h
  | cons v t ih => intro h; exact ih _ (tallyVuln_counts m v h)

theorem foldl_targets_eq_bind (rs : List TrivyTarget) (m : RiskMetrics) :
    rs.foldl (fun acc r => (r.vulnerabilities.getD []).foldl tallyVuln acc) m
      = ((rs.flatMap fun r => r.vulnerabilities.getD []).foldl tallyVuln m) := by
  induction rs generalizing m with
  | nil => rfl
  | cons r t ih => simp [List.foldl_append, ih]

theorem tallyVuln_fixable (m : RiskMetrics) (v : Vuln) :
    (tallyVuln m v).fixable_count =
      m.fixable_count + (if is_fixable v then 1 else 0) := by
  simp only [tallyVuln, is_fixable]
  repeat' split
  all_goals simp_all

theorem foldl_tallyVuln_fixable (l : List Vuln) (m : RiskMetrics) :
    (l.foldl tallyVuln m).fixable_count =
      m.fixable_count + l.countP is_fixable := by
  induction l generalizing m with
  | nil => simp
  | cons v t ih => simp [ih, tallyVuln_fixable, List.countP_cons]; split <;> omega

theorem calculate_risk_metrics_fold_facts (doc : TrivyDoc)
    (config : WorkerConfig) :
    countsConsistent (calculate_risk_metrics doc config) ∧
    (calculate_risk_metrics doc config).fixable_count =
      (allVulns doc).countP is_fixable := by
  have hfold := foldl_tallyVuln_counts
    ((doc.results.getD []).flatMap fun r => r.vulnerabilities.getD [])
    ({} : RiskMetrics) ⟨rfl, rfl⟩
  have hfix := foldl_tallyVuln_fixable
    ((doc.results.getD []).flatMap fun r => r.vulnerabilities.getD [])
    ({} : RiskMetrics)
  unfold countsConsistent at hfold ⊢
  unfold allVulns
  simp only [calculate_risk_metrics, foldl_targets_eq_bind]
  repeat' split
  all_goals simp_all

/-- A Trivy document with a single MEDIUM-severity finding. -/
def mediumOnlyDoc : TrivyDoc :=
  ⟨some [⟨some [⟨some "MEDIUM", some "1.2.3"⟩]⟩]⟩

/-- The spec's example document: 2 critical, 1 high, 1 medium and 2 low
findings spread over two results. -/
def riskExampleDoc : TrivyDoc :=
  ⟨some
    [⟨some [⟨some "CRITICAL", some "2.0"⟩, ⟨some "CRITICAL", none⟩,
            ⟨some "HIGH", some "1.1"⟩]⟩,
     ⟨some [⟨some "MEDIUM", none⟩, ⟨some "LOW", some "0.5"⟩,
            ⟨some "LOW", none⟩]⟩]⟩

/-- C1 counterexample: a document with one MEDIUM finding has
`critical_count = 0` and `high_count = 0`, yet the metric extractor sets
`is_compliant = false` (it also clears the flag for medium/low-only scans),
refuting the claimed equivalence `is_compliant ↔ critical = 0 ∧ high = 0`. -/
theorem is_compliant_medium_refutes_claim :
    (calculate_risk_metrics mediumOnlyDoc defaultWorkerConfig).critical_count
        = 0 ∧
    (calculate_risk_metrics mediumOnlyDoc defaultWorkerConfig).high_count
        = 0 ∧
    (calculate_risk_metrics mediumOnlyDoc defaultWorkerConfig).is_compliant
        = false := by
  refine ⟨?_, ?_, ?_⟩ <;> decide

/-- C1 (amended): for every parsed scanner document and weight configuration,
the extractor sets `is_compliant = true` iff critical, high, medium and low
counts are all zero; findings of unknown severity do not affect the flag. -/
theorem calculate_risk_metrics_is_compliant_iff (doc : TrivyDoc)
    (config : WorkerConfig) :
    (calculate_risk_metrics doc config).is_compliant = true ↔
      ((calculate_risk_metrics doc config).critical_count = 0 ∧
       (calculate_risk_metrics doc config).high_count = 0 ∧
       (calculate_risk_metrics doc config).medium_count = 0 ∧
       (calculate_risk_metrics doc config).low_count = 0) := by
  simp only [calculate_risk_metrics]
  repeat' split
  all_goals simp_all
  all_goals omega

/-- C2: for every parsed scanner document the risk score under the default
weights is 100·critical + 50·high + 10·medium + 1·low (the severity tallies
of the same run; unknown findings contribute zero), and the spec's example
document with 2 critical, 1 high, 1 medium and 2 low findings scores 262. -/
theorem calculate_risk_metrics_risk_score_formula (doc : TrivyDoc) :
    ((calculate_risk_metrics doc defaultWorkerConfig).risk_score =
      100 * (calculate_risk_metrics doc defaultWorkerConfig).critical_count +
      50 * (calculate_risk_metrics doc defaultWorkerConfig).high_count +
      10 * (calculate_risk_metrics doc defaultWorkerConfig).medium_count +
      1 * (calculate_risk_metrics doc defaultWorkerConfig).low_count) ∧
    (calculate_risk_metrics riskExampleDoc defaultWorkerConfig).risk_score
      = 262 := by
  constructor
  · simp only [calculate_risk_metrics, defaultWorkerConfig]
    repeat' split
    all_goals simp
    all_goals omega
  · decide

/-- C3: for every parsed scanner document, terminal metrics written by the
success write satisfy `total_vulnerabilities = critical + high + medium + low
+ unknown` and `fixable + unfixable = total_vulnerabilities`, where the
fixable tally counts exactly the findings whose `FixedVersion` is present and
non-blank after trimming; the write puts the scan in the terminal `completed`
state. -/
theorem save_scan_results_count_invariants (doc : TrivyDoc)
    (config : WorkerConfig) (row : ScanRow) (worker : String) (now : Nat) :
    ((save_scan_results row doc (calculate_risk_metrics doc config) worker
        now).total_vulnerabilities =
      (save_scan_results row doc (calculate_risk_metrics doc config) worker
        now).critical_count +
      (save_scan_results row doc (calculate_risk_metrics doc config) worker
        now).high_count +
      (save_scan_results row doc (calculate_risk_metrics doc config) worker
        now).medium_count +
      (save_scan_results row doc (calculate_risk_metrics doc config) worker
        now).low_count +
      (save_scan_results row doc (calculate_risk_metrics doc config) worker
        now).unknown_count) ∧
    ((save_scan_results row doc (calculate_risk_metrics doc config) worker
        now).fixable_count +
      (save_scan_results row doc (calculate_risk_metrics doc config) worker
        now).unfixable_count =
      (save_scan_results row doc (calculate_risk_metrics doc config) worker
        now).total_vulnerabilities) ∧
    ((save_scan_results row doc (calculate_risk_metrics doc config) worker
        now).fixable_count = (allVulns doc).countP is_fixable) ∧
    (save_scan_results row doc (calculate_risk_metrics doc config) worker
        now).status = ScanStatus.completed := by
  obtain ⟨⟨h1, h2⟩, h3⟩ := calculate_risk_metrics_fold_facts doc config
  simp only [save_scan_results]
  refine ⟨h1, h2, h3, ?_⟩
  trivial

/-! ## Image references (C10) -/

/-- The image reference built by `worker.process_single_scan` and
`worker.process_single_scan_by_id`: `f"{registry}/{image_name}:{image_tag}"`,
overridden to `f"{image_name}:{image_tag}"` when the registry is
`docker.io`. -/
def worker_image_ref (registry image_name image_tag : String) : String :=
  let image_ref := registry ++ "/" ++ image_name ++ ":" ++ image_tag
  if registry = "docker.io" then image_name ++ ":" ++ image_tag
  else image_ref

/-- `models.VulnerabilityScan.full_image_name`: prefix the registry exactly
when it is truthy (non-empty) and not `docker.io`. -/
def full_image_name (row : ScanRow) : String :=
  if row.registry ≠ "" ∧ row.registry ≠ "docker.io" then
    row.registry ++ "/" ++ row.image_name ++ ":" ++ row.image_tag
  else
    row.image_name ++ ":" ++ row.image_tag

/-- C10: for every scan row with a non-empty registry, the reference handed
to Trivy and the `full_image_name` API property carry the registry prefix iff
the registry differs from `docker.io`; for `docker.io` both are exactly
`image_name:image_tag`. -/
theorem image_reference_registry_handling (row : ScanRow)
    (hreg : row.registry ≠ "") :
    (row.registry = "docker.io" →
      worker_image_ref row.registry row.image_name row.image_tag =
          row.image_name ++ ":" ++ row.image_tag ∧
      full_image_name row = row.image_name ++ ":" ++ row.image_tag) ∧
    (row.registry ≠ "docker.io" →
      worker_image_ref row.registry row.image_name row.image_tag =
          row.registry ++ "/" ++ row.image_name ++ ":" ++ row.image_tag ∧
      full_image_name row =
          row.registry ++ "/" ++ row.image_name ++ ":" ++ row.image_tag) := by
  unfold worker_image_ref full_image_name
  constructor
  · intro hr
    simp [hr]
  · intro hr
    simp [hr, hreg]

/-- A completed scan row on the default registry. -/
def dockerHubRow : ScanRow :=
  { image_name := "nginx", image_tag := "latest", registry := "docker.io",
    status := ScanStatus.completed }

/-- A completed scan row on a third-party registry. -/
def gcrRow : ScanRow :=
  { image_name := "project/image", image_tag := "v1", registry := "gcr.io",
    status := ScanStatus.completed }

/-- Closed instance of the registry-prefix theorem at two concrete rows. -/
theorem image_reference_registry_handling_witness :
    full_image_name dockerHubRow = "nginx:latest" ∧
    full_image_name gcrRow = "gcr.io/project/image:v1" := by
  constructor
  · exact ((image_reference_registry_handling dockerHubRow (by decide)).1
      rfl).2
  · exact ((image_reference_registry_handling gcrRow (by decide)).2
      (by decide)).2

/-! ## Failure writes (C5) -/

/-- A freshly created scan row in the `pending` state
(`services.ScanService._create_scan`): no worker, no timestamps, no error
fields. -/
def pendingRow : ScanRow :=
  { image_name := "nginx", image_tag := "latest", registry := "docker.io",
    status := ScanStatus.pending }

/-- `worker._handle_scan_failure`: one `update_scan_status` call carrying
`error_message`, `error_code`, the (conditionally incremented) `retry_count`
and `completed_at = now` — all in the same write. -/
def handle_scan_failure_write (row : ScanRow)
    (error_message error_code : String) (increment_retry : Bool)
    (now completed : Nat) : ScanRow :=
  update_scan_status row ScanStatus.failed (some error_message)
    (some error_code) none
    (some (if increment_retry then row.retry_count + 1 else row.retry_count))
    (some completed) now

/-- The fallback write in `worker.process_scan_job`'s exception handler:
`update_scan_status` with only `error_message` and `error_code` — the call
passes no `completed_at` keyword. -/
def background_task_failure_write (row : ScanRow) (error_text : String)
    (now : Nat) : ScanRow :=
  update_scan_status row ScanStatus.failed
    (some ("Background task error: " ++ error_text))
    (some "BACKGROUND_TASK_ERROR") none none none now

/-- C5 counterexample: the background-task fallback moves a pending scan to
`failed` with `error_code` set but `completed_at` still null, refuting the
claim that every path to the failed state sets both fields. -/
theorem failed_write_missing_completed_at :
    (background_task_failure_write pendingRow "boom" 7).status
        = ScanStatus.failed ∧
    (background_task_failure_write pendingRow "boom" 7).error_code
        = some "BACKGROUND_TASK_ERROR" ∧
    (background_task_failure_write pendingRow "boom" 7).completed_at
        = none := by
  refine ⟨?_, ?_, ?_⟩ <;> decide

/-- C5 (amended): every scan failed through `_handle_scan_failure` gets a
non-null `error_code` and a non-null `completed_at` in the same write, while
the background-task fallback of `process_scan_job` sets `status = failed` and
`error_code = BACKGROUND_TASK_ERROR` but leaves `completed_at` unchanged. -/
theorem handle_scan_failure_sets_error_and_completed (row : ScanRow)
    (msg code : String) (inc : Bool) (now completed : Nat)
    (hcode : code ≠ "") :
    ((handle_scan_failure_write row msg code inc now completed).status
        = ScanStatus.failed ∧
     (handle_scan_failure_write row msg code inc now completed).error_code
        = some code ∧
     (handle_scan_failure_write row msg code inc now completed).completed_at
        = some completed) ∧
    ∀ (e : String) (n : Nat),
      (background_task_failure_write row e n).status = ScanStatus.failed ∧
      (background_task_failure_write row e n).error_code
          = some "BACKGROUND_TASK_ERROR" ∧
      (background_task_failure_write row e n).completed_at
          = row.completed_at := by
  unfold handle_scan_failure_write background_task_failure_write
    update_scan_status
  refine ⟨?_, ?_⟩
  · repeat' split
    all_goals simp_all
  · intro e n
    repeat' split
    all_goals simp_all

/-- Closed instance of the amended failure-write theorem. -/
theorem handle_scan_failure_write_witness :
    (handle_scan_failure_write pendingRow
        "Scan timed out after 600 seconds" "TIMEOUT" true 9 9).status
        = ScanStatus.failed ∧
    (handle_scan_failure_write pendingRow
        "Scan timed out after 600 seconds" "TIMEOUT" true 9 9).error_code
        = some "TIMEOUT" ∧
    (handle_scan_failure_write pendingRow
        "Scan timed out after 600 seconds" "TIMEOUT" true 9 9).completed_at
        = some 9 := by
  exact (handle_scan_failure_sets_error_and_completed pendingRow
    "Scan timed out after 600 seconds" "TIMEOUT" true 9 9 (by decide)).1

/-! ## The claim protocol and its race (C4) -/

/-- `worker.fetch_pending_scan`: a plain SELECT of the oldest pending row.
The row-level lock is commented out in the source
(`# PostgreSQL-specific: .with_for_update(skip_locked=True)`), so the read
takes no lock and skips nothing.  With a single candidate row it returns the
row iff its status is `pending`. -/
def fetch_pending_scan (row : ScanRow) : Option ScanRow :=
  if row.status = ScanStatus.pending then some row else none

/-- Program counter of one polling worker (`ScanWorker.run`): about to call
`fetch_pending_scan`; holding a fetched row and about to perform
`process_single_scan`'s first status write; or stopped. -/
inductive PollPc where
  | fetch
  | claimWrite
  | stopped
deriving DecidableEq, Repr

/-- One polling worker: its program counter and whether it has performed the
write that advances the row out of `pending`. -/
structure PollWorker where
  pc : PollPc
  advanced : Bool
deriving DecidableEq, Repr

/-- Two polling workers sharing one scan row. -/
structure PollSystem where
  row : ScanRow
  w0 : PollWorker
  w1 : PollWorker
deriving DecidableEq, Repr

/-- One atomic database round-trip of a polling worker: either its
`fetch_pending_scan` SELECT, or the first write of `process_single_scan` —
`update_scan_status(session, scan_id, pulling, started_at=now)`, an
unconditional UPDATE by id with no status guard and no abort path. -/
def pollWorkerStep (row : ScanRow) (w : PollWorker) (now : Nat) :
    ScanRow × PollWorker :=
  match w.pc with
  | PollPc.fetch =>
      match fetch_pending_scan row with
      | some _ => (row, { w with pc := PollPc.claimWrite })
      | none => (row, { w with pc := PollPc.stopped })
  | PollPc.claimWrite =>
      (update_scan_status row ScanStatus.pulling none none (some now) none none
        now,
       { pc := PollPc.stopped, advanced := true })
  | PollPc.stopped => (row, w)

/-- Interleaving step: run the next action of worker 0 (`false`) or
worker 1 (`true`). -/
def pollSystemStep (s : PollSystem) (i : Bool) (now : Nat) : PollSystem :=
  if i then
    let p := pollWorkerStep s.row s.w1 now
    { s with row := p.1, w1 := p.2 }
  else
    let p := pollWorkerStep s.row s.w0 now
    { s with row := p.1, w0 := p.2 }

/-- Run a schedule of interleaved worker steps. -/
def runPollSchedule (s : PollSystem) (sched : List Bool) (now : Nat) :
    PollSystem :=
  sched.foldl (fun acc i => pollSystemStep acc i now) s

/-- Both workers idle at their polling loop, one pending row. -/
def initPollSystem : PollSystem :=
  { row := pendingRow, w0 := ⟨PollPc.fetch, false⟩, w1 := ⟨PollPc.fetch, false⟩ }

/-- `worker.process_scan_job`'s claim: `SELECT ... WHERE id = ? AND status =
'pending' FOR UPDATE SKIP LOCKED`, then set `pulling`, `worker_id` and
`started_at` and commit — one atomic compare-and-claim that aborts (`return`)
without mutating the row when the row is not pending. -/
def process_scan_job_claim (row : ScanRow) (worker : String) (now : Nat) :
    ScanRow × Bool :=
  if row.status = ScanStatus.pending then
    ({ row with
        status := ScanStatus.pulling
        started_at := some now
        worker_id := some worker },
      true)
  else (row, false)

/-- Two racing background dispatches through `process_scan_job` behave as the
claim demands: the first claims the row, the second aborts without mutating
it. -/
theorem process_scan_job_claim_exclusive (row : ScanRow) (wa wb : String)
    (ta tb : Nat) (h : row.status = ScanStatus.pending) :
    (process_scan_job_claim row wa ta).2 = true ∧
    process_scan_job_claim (process_scan_job_claim row wa ta).1 wb tb
      = ((process_scan_job_claim row wa ta).1, false) := by
  unfold process_scan_job_claim
  simp [h]

/-- C4: under the interleaving where both polling workers run
`fetch_pending_scan` before either one writes, both workers observe the same
pending row, neither observes a lost race, and both perform the write that
advances it out of `pending` — refuting claim exclusivity for the polling
path (the dispatch path `process_scan_job` does claim atomically, but the
worker loop's SELECT carries no lock and its UPDATE no status guard). -/
theorem poll_claim_race_both_advance :
    (runPollSchedule initPollSystem [false, true, false, true] 3).w0.advanced
        = true ∧
    (runPollSchedule initPollSystem [false, true, false, true] 3).w1.advanced
        = true ∧
    (runPollSchedule initPollSystem [false, true, false, true] 3).row.status
        = ScanStatus.pulling := by
  refine ⟨?_, ?_, ?_⟩ <;> decide

/-! ## Audit trails (C9) -/

/-- The `(previous_status, new_status)` pairs passed to
`log_audit_transition`, in program order, by `worker.process_single_scan` on
its success path. -/
def process_single_scan_audit_trail : List (ScanStatus × ScanStatus) :=
  [(ScanStatus.pending, ScanStatus.pulling),
   (ScanStatus.pulling, ScanStatus.scanning),
   (ScanStatus.scanning, ScanStatus.parsing),
   (ScanStatus.parsing, ScanStatus.completed)]

/-- The same pairs for `worker.process_single_scan_by_id` (the path reached
through `process_scan_job`, whose claiming commit writes no audit row): the
first `log_audit_transition` call — directly under the source comment
"Log the PULLING->SCANNING transition" — passes `previous = pulling`,
`new = pulling` with message "Scan claimed by worker". -/
def process_single_scan_by_id_audit_trail : List (ScanStatus × ScanStatus) :=
  [(ScanStatus.pulling, ScanStatus.pulling),
   (ScanStatus.pulling, ScanStatus.scanning),
   (ScanStatus.scanning, ScanStatus.parsing),
   (ScanStatus.parsing, ScanStatus.completed)]

/-- The forward chain of the state diagram
pending → pulling → scanning → parsing → completed. -/
def statusDiagramChain : List (ScanStatus × ScanStatus) :=
  [(ScanStatus.pending, ScanStatus.pulling),
   (ScanStatus.pulling, ScanStatus.scanning),
   (ScanStatus.scanning, ScanStatus.parsing),
   (ScanStatus.parsing, ScanStatus.completed)]

/-- The shape the claim demands of an audit trail: a prefix of the diagram
chain, optionally ending in a single transition from a non-terminal state to
`failed`. -/
def isDiagramTrail (l : List (ScanStatus × ScanStatus)) : Bool :=
  List.isPrefixOf l statusDiagramChain ||
    (match l.getLast? with
     | some (s, t) =>
         (t == ScanStatus.failed) && !(s == ScanStatus.completed) &&
           !(s == ScanStatus.failed) &&
           List.isPrefixOf l.dropLast statusDiagramChain
     | none => false)

/-- C9: the audit trail recorded for a scan driven through the background
dispatch path starts with the self-loop `(pulling, pulling)` and is not a
prefix of the state diagram; the worker-loop path's trail is a full diagram
prefix.  A trail of the dispatch path therefore refutes the claim. -/
theorem audit_trail_contains_self_loop :
    (ScanStatus.pulling, ScanStatus.pulling)
        ∈ process_single_scan_by_id_audit_trail ∧
    isDiagramTrail process_single_scan_by_id_audit_trail = false ∧
    isDiagramTrail process_single_scan_audit_trail = true := by
  refine ⟨?_, ?_, ?_⟩ <;> decide

/-! ## Scanner invoker error classification (C6) -/

/-- Python substring containment (`needle in hay`) on character lists. -/
def containsSub (needle : List Char) : List Char → Bool
  | [] => needle.isEmpty
  | c :: t => List.isPrefixOf needle (c :: t) || containsSub needle t

/-- Python `str.lower()` on character lists (ASCII, which covers the matched
patterns). -/
def pyLowerChars (s : List Char) : List Char := s.map Char.toLower

/-- Python `str.strip()` on character lists. -/
def pyStripChars (s : List Char) : List Char :=
  ((s.dropWhile Char.isWhitespace).reverse.dropWhile Char.isWhitespace).reverse

/-- stderr matches the image-not-found patterns: `"could not find image" in
stderr_text.lower()` or `"manifest unknown" in stderr_text.lower()`, with
`stderr_text` the decoded, stripped stderr. -/
def matchesImageNotFound (stderr : List Char) : Bool :=
  let lowered := pyLowerChars (pyStripChars stderr)
  containsSub "could not find image".data lowered ||
    containsSub "manifest unknown".data lowered

/-- stderr matches the authentication patterns `"unauthorized"` /
`"denied"`. -/
def matchesAuthDenied (stderr : List Char) : Bool :=
  let lowered := pyLowerChars (pyStripChars stderr)
  containsSub "unauthorized".data lowered ||
    containsSub "denied".data lowered

/-- stderr matches the rate-limit patterns `"rate limit"` /
`"too many requests"`. -/
def matchesRateLimit (stderr : List Char) : Bool :=
  let lowered := pyLowerChars (pyStripChars stderr)
  containsSub "rate limit".data lowered ||
    containsSub "too many requests".data lowered

/-- The classified errors `run_trivy_scan` can raise after the subprocess
exits, mirroring `exceptions.ImageNotFoundException`,
`exceptions.ImagePullException` and `exceptions.TrivyExecutionException`
(each carrying the constructor arguments the worker passes). -/
inductive TrivyScanError where
  | imageNotFound (image_name : String)
  | imagePull (image_name : String) (reason : String)
  | trivyExecution (reason : String) (exit_code : Int)
deriving DecidableEq, Repr

/-- Result of one `run_trivy_scan` invocation after the subprocess exits. -/
inductive TrivyOutcome where
  | ok (doc : TrivyDoc)
  | err (e : TrivyScanError)
deriving DecidableEq, Repr

/-- The exit-code handling of `worker.run_trivy_scan` (lines 261-304), after
`communicate()` has returned: on a non-zero exit, classify the stripped,
lowercased stderr in source order; on a zero exit, raise
`TrivyExecutionException` when the output file is missing (`output = none`)
or is not valid JSON (`output = some none`, where the source reason carries
the `json.JSONDecodeError` detail, elided here).  The timeout branch kills
the process and raises before this logic runs; it is outside this model. -/
def run_trivy_scan_outcome (image_reference : String) (returncode : Int)
    (stderr : List Char) (output : Option (Option TrivyDoc)) : TrivyOutcome :=
  if returncode ≠ 0 then
    let stderr_text := pyStripChars stderr
    if matchesImageNotFound stderr then
      TrivyOutcome.err (TrivyScanError.imageNotFound image_reference)
    else if matchesAuthDenied stderr then
      TrivyOutcome.err (TrivyScanError.imagePull image_reference
        "Authentication failed - check registry credentials")
    else if matchesRateLimit stderr then
      TrivyOutcome.err (TrivyScanError.imagePull image_reference
        "Registry rate limit exceeded")
    else
      TrivyOutcome.err (TrivyScanError.trivyExecution
        (if stderr_text ≠ [] then String.mk stderr_text
         else "Exit code " ++ toString returncode) returncode)
  else
    match output with
    | none => TrivyOutcome.err (TrivyScanError.trivyExecution
        "Trivy did not produce output file" returncode)
    | some none => TrivyOutcome.err (TrivyScanError.trivyExecution
        "Failed to parse Trivy JSON output" 0)
    | some (some doc) => TrivyOutcome.ok doc

/-- The `error_code` persisted for each classified error by the `except`
arms of `process_single_scan` / `process_single_scan_by_id`. -/
def persisted_error_code : TrivyScanError → String
  | TrivyScanError.imageNotFound _ => "IMAGE_NOT_FOUND"
  | TrivyScanError.imagePull _ _ => "PULL_FAILED"
  | TrivyScanError.trivyExecution _ _ => "TRIVY_ERROR"

/-- C6: on a non-zero scanner exit the invoker classifies stderr
case-insensitively in source order — image-not-found patterns beat
auth/denied patterns, which beat rate-limit patterns, and anything else is a
TRIVY_ERROR carrying the exit code and the (stripped) stderr; on a zero exit
with a missing or non-JSON output file it is a TRIVY_ERROR. -/
theorem run_trivy_scan_error_classification (img : String) (rc : Int)
    (stderr : List Char) (output : Option (Option TrivyDoc)) :
    (rc ≠ 0 → matchesImageNotFound stderr = true →
      run_trivy_scan_outcome img rc stderr output =
        TrivyOutcome.err (TrivyScanError.imageNotFound img)) ∧
    (rc ≠ 0 → matchesImageNotFound stderr = false →
        matchesAuthDenied stderr = true →
      ∃ e, run_trivy_scan_outcome img rc stderr output = TrivyOutcome.err e ∧
        persisted_error_code e = "PULL_FAILED") ∧
    (rc ≠ 0 → matchesImageNotFound stderr = false →
        matchesAuthDenied stderr = false → matchesRateLimit stderr = true →
      ∃ e, run_trivy_scan_outcome img rc stderr output = TrivyOutcome.err e ∧
        persisted_error_code e = "PULL_FAILED") ∧
    (rc ≠ 0 → matchesImageNotFound stderr = false →
        matchesAuthDenied stderr = false → matchesRateLimit stderr = false →
      run_trivy_scan_outcome img rc stderr output =
        TrivyOutcome.err (TrivyScanError.trivyExecution
          (if pyStripChars stderr ≠ [] then String.mk (pyStripChars stderr)
           else "Exit code " ++ toString rc) rc)) ∧
    (rc = 0 → output = none →
      ∃ reason, run_trivy_scan_outcome img rc stderr output =
        TrivyOutcome.err (TrivyScanError.trivyExecution reason rc)) ∧
    (rc = 0 → output = some none →
      ∃ reason ec, run_trivy_scan_outcome img rc stderr output =
        TrivyOutcome.err (TrivyScanError.trivyExecution reason ec)) := by
  unfold run_trivy_scan_outcome
  refine ⟨?_, ?_, ?_, ?_, ?_, ?_⟩
  · intro h0 hm
    simp [h0, hm]
  · intro h0 hm ha
    simp [h0, hm, ha, persisted_error_code]
  · intro h0 hm ha hr
    simp [h0, hm, ha, hr, persisted_error_code]
  · intro h0 hm ha hr
    simp [h0, hm, ha, hr]
  · intro h0 hout
    subst hout
    simp [h0]
  · intro h0 hout
    subst hout
    simp [h0]

/-- Closed instances of the classification theorem: a manifest-unknown
stderr, an unauthorized stderr, a rate-limit stderr, an unmatched stderr,
and a zero exit without an output file. -/
theorem run_trivy_scan_classification_witness :
    run_trivy_scan_outcome "nginx:latest" 1
        "FATAL: manifest unknown in registry".data none =
      TrivyOutcome.err (TrivyScanError.imageNotFound "nginx:latest") ∧
    (∃ e, run_trivy_scan_outcome "nginx:latest" 1
        "response: 401 Unauthorized".data none = TrivyOutcome.err e ∧
      persisted_error_code e = "PULL_FAILED") ∧
    (∃ e, run_trivy_scan_outcome "nginx:latest" 1
        "429 Too Many Requests".data none = TrivyOutcome.err e ∧
      persisted_error_code e = "PULL_FAILED") ∧
    run_trivy_scan_outcome "nginx:latest" 2 "segfault".data none =
      TrivyOutcome.err (TrivyScanError.trivyExecution "segfault" 2) ∧
    (∃ reason, run_trivy_scan_outcome "nginx:latest" 0 [] none =
      TrivyOutcome.err (TrivyScanError.trivyExecution reason 0)) := by
  refine ⟨?_, ?_, ?_, ?_, ?_⟩
  · exact (run_trivy_scan_error_classification "nginx:latest" 1
      "FATAL: manifest unknown in registry".data none).1 (by decide) (by decide)
  · exact (run_trivy_scan_error_classification "nginx:latest" 1
      "response: 401 Unauthorized".data none).2.1 (by decide) (by decide)
      (by decide)
  · exact (run_trivy_scan_error_classification "nginx:latest" 1
      "429 Too Many Requests".data none).2.2.1 (by decide) (by decide)
      (by decide) (by decide)
  · have h := (run_trivy_scan_error_classification "nginx:latest" 2
      "segfault".data none).2.2.2.1 (by decide) (by decide) (by decide)
      (by decide)
    rw [h]
    decide
  · exact (run_trivy_scan_error_classification "nginx:latest" 0 [] none).2.2.2.2.1
      rfl rfl

/-! ## Image reference normalization (C7) -/

/-- Python truthiness of an optional-string argument (`not image_tag` is true
for both an omitted argument and an empty string). -/
def pyOptTruthy (o : Option String) : Bool :=
  match o with
  | none => false
  | some s => decide (s ≠ "")

/-- Python `str.lower()` (ASCII). -/
def pyLower (s : String) : String := String.mk (s.data.map Char.toLower)

/-- Python `str.strip("/")`: drop `/` characters from both ends. -/
def pyStripSlashes (s : String) : String :=
  String.mk (((s.data.dropWhile (fun c => c = '/')).reverse.dropWhile
    (fun c => c = '/')).reverse)

/-- Split a character list at the LAST occurrence of `sep` (Python
`s.rsplit(sep, 1)` when `sep` occurs), returning the parts before and after
it; `none` when `sep` does not occur. -/
def splitAtLast (sep : Char) : List Char → Option (List Char × List Char)
  | [] => none
  | c :: t =>
      match splitAtLast sep t with
      | some (a, b) => some (c :: a, b)
      | none => if c = sep then some ([], t) else none

/-- Split a character list at the FIRST occurrence of `sep` (Python
`s.split(sep, 1)` when `sep` occurs). -/
def splitAtFirst (sep : Char) : List Char → Option (List Char × List Char)
  | [] => none
  | c :: t =>
      if c = sep then some ([], t)
      else
        match splitAtFirst sep t with
        | some (a, b) => some (c :: a, b)
        | none => none

theorem splitAtLast_eq_none (sep : Char) (l : List Char) :
    splitAtLast sep l = none ↔ ¬ sep ∈ l := by
  induction l with
  | nil => simp [splitAtLast]
  | cons c t ih =>
      cases h : splitAtLast sep t with
      | some p =>
          obtain ⟨a, b⟩ := p
          have ht : sep ∈ t := by
            by_contra hmem
            rw [← ih] at hmem
            rw [h] at hmem
            cases hmem
          simp [splitAtLast, h, ht]
      | none =>
          rw [h] at ih
          simp only [true_iff] at ih
          rcases eq_or_ne c sep with hc | hc
          · simp [splitAtLast, h, hc, ih]
          · simp [splitAtLast, h, hc, ih, Ne.symm hc]

/-- `services.ScanService.normalize_image_reference`: default the tag and
registry, lowercase the name and strip surrounding slashes, split an embedded
tag off the rightmost `:` when no explicit tag was supplied, and lift an
embedded registry out of the first path segment (when it contains `.` or `:`
or equals `localhost`) when no explicit registry was supplied.  Returns
`(image_name, image_tag, registry)`. -/
def normalize_image_reference (image_name : String)
    (image_tag : Option String := none) (registry : Option String := none) :
    String × String × String :=
  let final_tag := if pyOptTruthy image_tag then image_tag.getD "" else "latest"
  let final_registry :=
    if pyOptTruthy registry then registry.getD "" else "docker.io"
  let final_name := pyStripSlashes (pyLower image_name)
  let tagSplit : String × String :=
    if final_name.data.contains ':' && !(pyOptTruthy image_tag) then
      match splitAtLast ':' final_name.data with
      | some (a, b) => (String.mk a, String.mk b)
      | none => (final_name, final_tag)
    else (final_name, final_tag)
  let final_name := tagSplit.1
  let final_tag := tagSplit.2
  let regSplit : String × String :=
    if final_name.data.contains '/' && !(pyOptTruthy registry) then
      let first_part := final_name.data.takeWhile (fun c => ¬ (c = '/'))
      if first_part.contains '.' || first_part.contains ':' ||
          first_part == "localhost".data then
        match splitAtFirst '/' final_name.data with
        | some (a, b) => (String.mk a, String.mk b)
        | none => (final_registry, final_name)
      else (final_registry, final_name)
    else (final_registry, final_name)
  (regSplit.2, final_tag, regSplit.1)

/-- The claim's description of normalization with no explicit tag and no
explicit registry, written from the spec's words: lowercase and strip
slashes; if the name contains `:`, the suffix after the rightmost `:` becomes
the tag, otherwise the tag defaults to `latest`; then if the name has a first
`/`-separated segment (ahead of a `/`) that contains `.`, contains `:`, or
equals `localhost`, that segment becomes the registry and is stripped from
the name, otherwise the registry defaults to `docker.io`. -/
def claimed_normalization (image_name : String) : String × String × String :=
  let base := pyStripSlashes (pyLower image_name)
  let tagSplit : List Char × String :=
    match splitAtLast ':' base.data with
    | some (a, b) => (a, String.mk b)
    | none => (base.data, "latest")
  let name := tagSplit.1
  let regSplit : String × List Char :=
    if name.contains '/' then
      let seg := name.takeWhile (fun c => ¬ (c = '/'))
      if seg.contains '.' || seg.contains ':' || seg == "localhost".data then
        match splitAtFirst '/' name with
        | some (a, b) => (String.mk a, b)
        | none => ("docker.io", name)
      else ("docker.io", name)
    else ("docker.io", name)
  (String.mk regSplit.2, tagSplit.2, regSplit.1)

/-- C7: with no explicitly supplied tag or registry, the source's
normalization is exactly the claimed pipeline, and the claim's example
normalizes as stated. -/
theorem normalize_image_reference_matches_claim (image_name : String) :
    (normalize_image_reference image_name none none =
      claimed_normalization image_name) ∧
    normalize_image_reference "gcr.io/Project/Image:v1" none none =
      ("project/image", "v1", "gcr.io") := by
  constructor
  · unfold normalize_image_reference claimed_normalization pyOptTruthy
    cases h : splitAtLast ':' (pyStripSlashes (pyLower image_name)).data with
    | none =>
        have hc : ¬ ':' ∈ (pyStripSlashes (pyLower image_name)).data :=
          (splitAtLast_eq_none ':' _).mp h
        simp [h, hc]
        repeat' split
        all_goals first | rfl | simp_all
    | some p =>
        obtain ⟨a, b⟩ := p
        have hc2 : ':' ∈ (pyStripSlashes (pyLower image_name)).data := by
          by_contra hmem
          rw [← splitAtLast_eq_none ':'] at hmem
          rw [h] at hmem
          cases hmem
        simp [h, hc2]
        repeat' split
        all_goals first | rfl | simp_all
  · decide

/-! ## Idempotency-key time bucketing (C8) -/

/-- The calendar fields of a Python `datetime` (UTC). -/
structure PyDatetime where
  year : Nat
  month : Nat
  day : Nat
  hour : Nat
  minute : Nat
  second : Nat
  microsecond : Nat
deriving DecidableEq, Repr

/-- The bucket computation of
`repositories.ScanRepository.generate_idempotency_key`:
`now.replace(minute=(now.minute // cache_window_minutes) *
cache_window_minutes, second=0, microsecond=0)` — only the minute WITHIN the
current hour is floored. -/
def bucket_start (now : PyDatetime) (cache_window_minutes : Nat) :
    PyDatetime :=
  { now with
      minute := now.minute / cache_window_minutes * cache_window_minutes
      second := 0
      microsecond := 0 }

/-- Two-digit zero-padded decimal rendering (the `%m`/`%d`/`%H`/`%M` fields
of `strftime`, exact for values below 100). -/
def pad2 (n : Nat) : List Char :=
  [Nat.digitChar (n / 10), Nat.digitChar (n % 10)]

/-- Four-digit zero-padded decimal rendering (the `%Y` field of `strftime`,
exact for years below 10000). -/
def pad4 (n : Nat) : List Char :=
  [Nat.digitChar (n / 1000), Nat.digitChar (n / 100 % 10),
   Nat.digitChar (n / 10 % 10), Nat.digitChar (n % 10)]

/-- `bucket_start.strftime("%Y%m%d%H%M")`. -/
def strftime_bucket (dt : PyDatetime) : List Char :=
  pad4 dt.year ++ pad2 dt.month ++ pad2 dt.day ++ pad2 dt.hour ++
    pad2 dt.minute

/-- `repositories.ScanRepository.generate_idempotency_key`, parameterized by
the hash function: the source applies
`hashlib.sha256(key_source.encode()).hexdigest()[:32]`, an opaque
deterministic function of the key source
`f"{registry}/{image_name}:{image_tag}:{bucket_str}"`; the key-source
construction and the time bucketing are modelled exactly. -/
def generate_idempotency_key (hash_fn : List Char → List Char)
    (image_name image_tag registry : String) (cache_window_minutes : Nat)
    (now : PyDatetime) : List Char :=
  let bucket_str := strftime_bucket (bucket_start now cache_window_minutes)
  hash_fn (registry.data ++ "/".data ++ image_name.data ++ ":".data ++
    image_tag.data ++ ":".data ++ bucket_str)

/-- Modelled from the spec's words, for comparison only: "the current UTC
instant rounded down to a multiple of the cache TTL minutes", expressed as
minutes within the day (day boundaries are multiples of every TTL dividing
1440, which covers the values distinguished below). -/
def spec_time_bucket (now : PyDatetime) (ttl : Nat) : Nat :=
  (now.hour * 60 + now.minute) / ttl * ttl

/-- Calendar fields small enough for the fixed-width rendering to be
faithful. -/
def datetimeFieldsValid (t : PyDatetime) : Prop :=
  1000 ≤ t.year ∧ t.year < 10000 ∧ t.month < 100 ∧ t.day < 100 ∧
    t.hour < 100 ∧ t.minute < 100

instance decidableDatetimeFieldsValid (t : PyDatetime) :
    Decidable (datetimeFieldsValid t) := by
  unfold datetimeFieldsValid
  exact inferInstance

theorem digitChar_injOn :
    ∀ a < 10, ∀ b < 10, Nat.digitChar a = Nat.digitChar b → a = b := by
  decide

theorem pad2_inj (a b : Nat) (ha : a < 100) (hb : b < 100) :
    pad2 a = pad2 b → a = b := by
  intro h
  simp only [pad2, List.cons.injEq, and_true] at h
  obtain ⟨h1, h2⟩ := h
  have d1 := digitChar_injOn (a / 10) (by omega) (b / 10) (by omega) h1
  have d2 := digitChar_injOn (a % 10) (by omega) (b % 10) (by omega) h2
  omega

theorem pad4_inj (a b : Nat) (ha : a < 10000) (hb : b < 10000) :
    pad4 a = pad4 b → a = b := by
  intro h
  simp only [pad4, List.cons.injEq, and_true] at h
  obtain ⟨h1, h2, h3, h4⟩ := h
  have d1 := digitChar_injOn (a / 1000) (by omega) (b / 1000) (by omega) h1
  have d2 := digitChar_injOn (a / 100 % 10) (by omega) (b / 100 % 10)
    (by omega) h2
  have d3 := digitChar_injOn (a / 10 % 10) (by omega) (b / 10 % 10)
    (by omega) h3
  have d4 := digitChar_injOn (a % 10) (by omega) (b % 10) (by omega) h4
  omega

theorem strftime_bucket_inj (d1 d2 : PyDatetime)
    (h1 : datetimeFieldsValid d1) (h2 : datetimeFieldsValid d2)
    (h : strftime_bucket d1 = strftime_bucket d2) :
    d1.year = d2.year ∧ d1.month = d2.month ∧ d1.day = d2.day ∧
      d1.hour = d2.hour ∧ d1.minute = d2.minute := by
  obtain ⟨hy1, hy1b, hmo1, hd1, hh1, hmi1⟩ := h1
  obtain ⟨hy2, hy2b, hmo2, hd2, hh2, hmi2⟩ := h2
  unfold strftime_bucket at h
  obtain ⟨h, emi⟩ := List.append_inj h rfl
  obtain ⟨h, eh⟩ := List.append_inj h rfl
  obtain ⟨h, ed⟩ := List.append_inj h rfl
  obtain ⟨ey, emo⟩ := List.append_inj h rfl
  exact ⟨pad4_inj _ _ hy1b hy2b ey, pad2_inj _ _ hmo1 hmo2 emo,
    pad2_inj _ _ hd1 hd2 ed, pad2_inj _ _ hh1 hh2 eh,
    pad2_inj _ _ hmi1 hmi2 emi⟩

theorem bucket_start_valid (t : PyDatetime) (w : Nat)
    (h : datetimeFieldsValid t) : datetimeFieldsValid (bucket_start t w) := by
  obtain ⟨a, b, c, d, e, f⟩ := h
  exact ⟨a, b, c, d, e,
    lt_of_le_of_lt (Nat.div_mul_le_self t.minute w) f⟩

/-- C8 counterexample: with TTL = 45 minutes, the instants 01:10 and 01:40
(same day) lie in different TTL-multiples-of-the-day buckets, yet the code
produces the same bucket string `…0100` for both (so their keys coincide),
and the code's bucket start 01:00 is not itself a multiple of 45 minutes —
refuting the claim for TTL values that do not divide 60. -/
theorem idempotency_bucket_counterexample :
    spec_time_bucket ⟨2026, 10, 12, 1, 10, 0, 0⟩ 45 ≠
      spec_time_bucket ⟨2026, 10, 12, 1, 40, 0, 0⟩ 45 ∧
    strftime_bucket (bucket_start ⟨2026, 10, 12, 1, 10, 0, 0⟩ 45) =
      strftime_bucket (bucket_start ⟨2026, 10, 12, 1, 40, 0, 0⟩ 45) ∧
    ((bucket_start ⟨2026, 10, 12, 1, 40, 0, 0⟩ 45).hour * 60 +
      (bucket_start ⟨2026, 10, 12, 1, 40, 0, 0⟩ 45).minute) % 45 ≠ 0 ∧
    generate_idempotency_key (fun s => s) "app" "v1" "docker.io" 45
        ⟨2026, 10, 12, 1, 10, 0, 0⟩ =
      generate_idempotency_key (fun s => s) "app" "v1" "docker.io" 45
        ⟨2026, 10, 12, 1, 40, 0, 0⟩ := by
  refine ⟨?_, ?_, ?_, ?_⟩ <;> decide

/-- C8 (amended): the key is a deterministic hash of
`registry/name:tag:bucket`, where the bucket is the current UTC time with the
minute floored to a multiple of the TTL WITHIN the current hour (seconds and
microseconds zeroed) — equal to rounding the instant down to a multiple of
the TTL exactly when the TTL divides 60.  Two computations for the same
triple with equal bucket starts yield equal keys, and distinct bucket starts
yield distinct bucket strings. -/
theorem generate_idempotency_key_bucketing (hash_fn : List Char → List Char)
    (image_name image_tag registry : String) (w : Nat) (t1 t2 : PyDatetime)
    (hw : 0 < w) (h1 : datetimeFieldsValid t1) (h2 : datetimeFieldsValid t2) :
    (bucket_start t1 w = bucket_start t2 w →
      generate_idempotency_key hash_fn image_name image_tag registry w t1 =
        generate_idempotency_key hash_fn image_name image_tag registry w t2) ∧
    (bucket_start t1 w ≠ bucket_start t2 w →
      strftime_bucket (bucket_start t1 w) ≠
        strftime_bucket (bucket_start t2 w)) ∧
    (w ∣ 60 →
      (bucket_start t1 w).hour * 60 + (bucket_start t1 w).minute =
        spec_time_bucket t1 w) := by
  refine ⟨?_, ?_, ?_⟩
  · intro h
    unfold generate_idempotency_key
    rw [h]
  · intro hne heq
    apply hne
    obtain ⟨hy, hmo, hd, hh, hmi⟩ := strftime_bucket_inj _ _
      (bucket_start_valid t1 w h1) (bucket_start_valid t2 w h2) heq
    simp only [bucket_start, PyDatetime.mk.injEq]
    exact ⟨hy, hmo, hd, hh, hmi, trivial, trivial⟩
  · rintro ⟨k, hk⟩
    unfold bucket_start spec_time_bucket
    simp only
    have hdiv : (t1.hour * 60 + t1.minute) / w = t1.hour * k + t1.minute / w := by
      rw [hk, show t1.hour * (w * k) = w * (t1.hour * k) by ring,
        Nat.mul_add_div hw]
    rw [hdiv, hk]
    generalize t1.minute / w = q
    ring

/-- Closed instance of the bucketing theorem: 01:10 and 01:20 share the
hourly bucket, so their keys coincide. -/
theorem generate_idempotency_key_bucketing_witness :
    generate_idempotency_key (fun s => s) "nginx" "latest" "docker.io" 60
        ⟨2026, 10, 12, 1, 10, 0, 0⟩ =
      generate_idempotency_key (fun s => s) "nginx" "latest" "docker.io" 60
        ⟨2026, 10, 12, 1, 20, 0, 0⟩ := by
  exact (generate_idempotency_key_bucketing (fun s => s) "nginx" "latest"
    "docker.io" 60 ⟨2026, 10, 12, 1, 10, 0, 0⟩ ⟨2026, 10, 12, 1, 20, 0, 0⟩
    (by decide) (by decide) (by decide)).1 (by decide)

end VulnScanner

